import Mathlib

/-!
Verification development for the API_CAP supervisor pipeline
(`check_mongo_changes.py`, `main.py`, `get_mongo_data.py`, `API.py`).

The Python modules are shallowly embedded: MongoDB collection contents
become explicit state values, file-system effects become explicit
`Option String` file contents and lists of performed writes, and the
subprocess boundary becomes the literal stdout token strings.  The
fingerprint of `check_mongo_changes.get_mongodb_data_hash` is modelled
faithfully: Python's `json.dumps(..., sort_keys=True)` serialization
(default separators, `ensure_ascii`) followed by a full MD5 over the
UTF-8 bytes of the serialized string.
-/

namespace APICap

/-- JSON values, the shape of MongoDB documents after the `{'_id': 0}`
projection.  Objects carry their fields in insertion order, as Python
dicts do; `sort_keys=True` ordering happens at serialization time. -/
inductive JValue where
  | jnull : JValue
  | jbool : Bool → JValue
  | jint : Int → JValue
  | jstr : String → JValue
  | jarr : List JValue → JValue
  | jobj : List (String × JValue) → JValue

/-- Lower-case hex digit for a nibble, as Python's `%x` formatting. -/
def hexDigitChar (n : Nat) : Char :=
  if n < 10 then Char.ofNat (48 + n) else Char.ofNat (87 + n)

/-- `\uXXXX` escape used by `json.dumps` with `ensure_ascii=True`. -/
def uEscape (n : Nat) : List Char :=
  ['\\', 'u', hexDigitChar (n / 4096 % 16), hexDigitChar (n / 256 % 16),
   hexDigitChar (n / 16 % 16), hexDigitChar (n % 16)]

/-- Escaping of one character inside a JSON string literal, following
`json.dumps` defaults (short escapes, `\u00XX` for other control
characters, `\uXXXX` for non-ASCII; astral-plane surrogate pairs are not
needed for this data and are not modelled). -/
def escapeChar (c : Char) : List Char :=
  if c = '"' then ['\\', '"']
  else if c = '\\' then ['\\', '\\']
  else if c = '\n' then ['\\', 'n']
  else if c = '\t' then ['\\', 't']
  else if c = '\r' then ['\\', 'r']
  else if c.toNat = 8 then ['\\', 'b']
  else if c.toNat = 12 then ['\\', 'f']
  else if c.toNat < 32 || c.toNat > 126 then uEscape c.toNat
  else [c]

/-- JSON string literal, `json.dumps` style. -/
def jsonStr (s : String) : String :=
  "\"" ++ String.mk (s.data.flatMap escapeChar) ++ "\""

/-- Code-point lexicographic `<=` on character lists: the comparison
Python uses on `str`. -/
def charsLe : List Char → List Char → Bool
  | [], _ => true
  | _ :: _, [] => false
  | a :: as, b :: bs =>
    if a.toNat < b.toNat then true
    else if b.toNat < a.toNat then false
    else charsLe as bs

/-- Python's `<=` on strings. -/
def pyLe (a b : String) : Prop := charsLe a.data b.data = true

instance : DecidableRel pyLe := fun a b =>
  inferInstanceAs (Decidable (charsLe a.data b.data = true))

/-- Key order used by `sort_keys=True`: compare entry keys with the
code-point lexicographic order Python uses on `str`. -/
def keyLE (a b : String × String) : Prop := pyLe a.1 b.1

instance : DecidableRel keyLE := fun a b => inferInstanceAs (Decidable (pyLe a.1 b.1))

/-- Sort serialized object entries by key (`sort_keys=True`). -/
def sortEntries (l : List (String × String)) : List (String × String) :=
  List.insertionSort keyLE l

/-- Render sorted object entries as `"key": value` with the default
`': '` separator. -/
def renderEntries (l : List (String × String)) : List String :=
  (sortEntries l).map (fun kv => jsonStr kv.1 ++ ": " ++ kv.2)

mutual

/-- `json.dumps(v, sort_keys=True)` with default separators. -/
def dumps : JValue → String
  | .jnull => "null"
  | .jbool true => "true"
  | .jbool false => "false"
  | .jint n => toString n
  | .jstr s => jsonStr s
  | .jarr xs => "[" ++ String.intercalate ", " (dumpsList xs) ++ "]"
  | .jobj fs => "\x7b" ++ String.intercalate ", " (renderEntries (dumpsFields fs)) ++ "\x7d"
termination_by structural v => v

/-- Serialize the elements of a JSON array in order. -/
def dumpsList : List JValue → List String
  | [] => []
  | x :: xs => dumps x :: dumpsList xs
termination_by structural l => l

/-- Serialize object fields (key, serialized value), insertion order. -/
def dumpsFields : List (String × JValue) → List (String × String)
  | [] => []
  | (k, v) :: fs => (k, dumps v) :: dumpsFields fs
termination_by structural l => l

end

/-! ### MD5 (`hashlib.md5`) over byte lists, RFC 1321 -/

/-- 2^32, the word modulus of MD5. -/
def M32 : Nat := 4294967296

/-- 32-bit modular addition. -/
def add32 (a b : Nat) : Nat := (a + b) % M32

/-- 32-bit complement. -/
def not32 (a : Nat) : Nat := a ^^^ 4294967295

/-- 32-bit left rotation (argument assumed < 2^32). -/
def rotl32 (x s : Nat) : Nat := ((x <<< s) % M32) ||| (x >>> (32 - s))

/-- MD5 round function F. -/
def funF (b c d : Nat) : Nat := (b &&& c) ||| (not32 b &&& d)

/-- MD5 round function G. -/
def funG (b c d : Nat) : Nat := (d &&& b) ||| (not32 d &&& c)

/-- MD5 round function H. -/
def funH (b c d : Nat) : Nat := b ^^^ c ^^^ d

/-- MD5 round function I. -/
def funI (b c d : Nat) : Nat := c ^^^ (b ||| not32 d)

/-- The 64 MD5 sine-derived constants. -/
def md5K : List Nat :=
  [3614090360, 3905402710, 606105819, 3250441966, 4118548399, 1200080426,
   2821735955, 4249261313, 1770035416, 2336552879, 4294925233, 2304563134,
   1804603682, 4254626195, 2792965006, 1236535329, 4129170786, 3225465664,
   643717713, 3921069994, 3593408605, 38016083, 3634488961, 3889429448,
   568446438, 3275163606, 4107603335, 1163531501, 2850285829, 4243563512,
   1735328473, 2368359562, 4294588738, 2272392833, 1839030562, 4259657740,
   2763975236, 1272893353, 4139469664, 3200236656, 681279174, 3936430074,
   3572445317, 76029189, 3654602809, 3873151461, 530742520, 3299628645,
   4096336452, 1126891415, 2878612391, 4237533241, 1700485571, 2399980690,
   4293915773, 2240044497, 1873313359, 4264355552, 2734768916, 1309151649,
   4149444226, 3174756917, 718787259, 3951481745]

/-- The 64 MD5 per-round left-rotation amounts. -/
def md5S : List Nat :=
  [7, 12, 17, 22, 7, 12, 17, 22, 7, 12, 17, 22, 7, 12, 17, 22,
   5, 9, 14, 20, 5, 9, 14, 20, 5, 9, 14, 20, 5, 9, 14, 20,
   4, 11, 16, 23, 4, 11, 16, 23, 4, 11, 16, 23, 4, 11, 16, 23,
   6, 10, 15, 21, 6, 10, 15, 21, 6, 10, 15, 21, 6, 10, 15, 21]

/-- The four 32-bit MD5 chaining words. -/
structure MD5State where
  a : Nat
  b : Nat
  c : Nat
  d : Nat
deriving DecidableEq, Repr

/-- One of the 64 MD5 rounds; `Mw` reads the message schedule. -/
def md5Round (Mw : Nat → Nat) (st : MD5State) (i : Nat) : MD5State :=
  let f := if i < 16 then funF st.b st.c st.d
           else if i < 32 then funG st.b st.c st.d
           else if i < 48 then funH st.b st.c st.d
           else funI st.b st.c st.d
  let g := if i < 16 then i
           else if i < 32 then (5 * i + 1) % 16
           else if i < 48 then (3 * i + 5) % 16
           else (7 * i) % 16
  let tmp := add32 (add32 (add32 st.a f) (md5K.getD i 0)) (Mw g)
  ⟨st.d, add32 st.b (rotl32 tmp (md5S.getD i 0)), st.b, st.c⟩

/-- Little-endian 32-bit word `i` of a 64-byte block. -/
def wordAt (block : List Nat) (i : Nat) : Nat :=
  block.getD (4 * i) 0 + 256 * block.getD (4 * i + 1) 0 +
    65536 * block.getD (4 * i + 2) 0 + 16777216 * block.getD (4 * i + 3) 0

/-- Compress one 64-byte block into the chaining state. -/
def md5Block (st : MD5State) (block : List Nat) : MD5State :=
  let r := (List.range 64).foldl (md5Round (wordAt block)) st
  ⟨add32 st.a r.a, add32 st.b r.b, add32 st.c r.c, add32 st.d r.d⟩

/-- Little-endian 8-byte encoding of the 64-bit bit length. -/
def le64Bytes (n : Nat) : List Nat :=
  (List.range 8).map (fun i => n >>> (8 * i) % 256)

/-- MD5 padding: `0x80`, zeros to 56 mod 64, little-endian bit length. -/
def padBytes (msg : List Nat) : List Nat :=
  let z := (119 - msg.length % 64) % 64
  msg ++ 128 :: List.replicate z 0 ++ le64Bytes (8 * msg.length % 18446744073709551616)

/-- Split a byte list into 64-byte blocks; the fuel argument (any bound
on the number of blocks, e.g. the length) keeps the recursion
structural so that block splitting evaluates by kernel reduction. -/
def toBlocksAux : Nat → List Nat → List (List Nat)
  | _, [] => []
  | 0, l => [l]
  | fuel + 1, l => l.take 64 :: toBlocksAux fuel (l.drop 64)

/-- Split a byte list into 64-byte blocks. -/
def toBlocks (l : List Nat) : List (List Nat) := toBlocksAux l.length l

/-- MD5 initial chaining value. -/
def md5Init : MD5State := ⟨1732584193, 4023233417, 2562383102, 271733878⟩

/-- Little-endian bytes of a 32-bit word. -/
def le32Bytes (n : Nat) : List Nat :=
  [n % 256, n >>> 8 % 256, n >>> 16 % 256, n >>> 24 % 256]

/-- The 16-byte MD5 digest of a byte list. -/
def md5Digest (msg : List Nat) : List Nat :=
  let st := (toBlocks (padBytes msg)).foldl md5Block md5Init
  le32Bytes st.a ++ le32Bytes st.b ++ le32Bytes st.c ++ le32Bytes st.d

/-- `hashlib.md5(...).hexdigest()`: lower-case hex of the digest. -/
def md5Hex (msg : List Nat) : String :=
  String.mk ((md5Digest msg).flatMap (fun b => [hexDigitChar (b / 16 % 16), hexDigitChar (b % 16)]))

/-- UTF-8 bytes of one character (`str.encode()`), BMP and astral. -/
def utf8Char (c : Char) : List Nat :=
  let n := c.toNat
  if n < 128 then [n]
  else if n < 2048 then [192 + n / 64, 128 + n % 64]
  else if n < 65536 then [224 + n / 4096, 128 + n / 64 % 64, 128 + n % 64]
  else [240 + n / 262144, 128 + n / 4096 % 64, 128 + n / 64 % 64, 128 + n % 64]

/-- UTF-8 encoding of a string (`data_string.encode()`). -/
def utf8Bytes (s : String) : List Nat := s.data.flatMap utf8Char

/-- `hashlib.md5(s.encode()).hexdigest()` as one function on strings. -/
def md5HexOfString (s : String) : String := md5Hex (utf8Bytes s)

set_option maxRecDepth 10000

/-- Sanity check against RFC 1321 test vector: MD5 of `abc`. -/
theorem md5_vector_abc :
    md5HexOfString "abc" = "900150983cd24fb0d6963f7d28e17f72" := by decide

/-- Sanity check against RFC 1321 test vector: MD5 of the empty string. -/
theorem md5_vector_empty :
    md5HexOfString "" = "d41d8cd98f00b204e9800998ecf8427e" := by decide

/-! ### The document store and `check_mongo_changes.py` -/

/-- A MongoDB document: its fields in insertion order. -/
abbrev Doc := List (String × JValue)

/-- The `{'_id': 0}` projection applied by `collection.find({}, {'_id': 0})`:
the top-level `_id` field is excluded. -/
def stripId (d : Doc) : Doc := d.filter (fun kv => kv.1 != "_id")

/-- The document store: each database name maps to its collections,
each a name paired with its documents in server iteration order. -/
structure MongoState where
  colls : String → List (String × List Doc)

/-- The fixed database list of `check_mongo_changes.py` and
`get_mongo_data.py`. -/
def DATABASES : List String := ["BACHV_BB_STOCKS", "BACHV_UD_STOCKS"]

/-- Descending order used by `sorted(collections, reverse=True)`. -/
def strGE (a b : String) : Prop := pyLe b a

instance : DecidableRel strGE := fun a b => inferInstanceAs (Decidable (pyLe b a))

/-- `sorted(l, reverse=True)` on strings (code-point lexicographic). -/
def sortedDesc (l : List String) : List String := List.insertionSort strGE l

/-- Python's `str.startswith`. -/
def pyStartsWith (s pre : String) : Bool := pre.data.isPrefixOf s.data

/-- `get_latest_collection`: filter collection names by the
`Net_Data_` prefix; `None` if none, else the first of the
descending-sorted names. -/
def get_latest_collection (st : MongoState) (database : String) : Option String :=
  let collections := ((st.colls database).map Prod.fst).filter
    (fun coll => pyStartsWith coll "Net_Data_")
  if collections.isEmpty then none
  else (sortedDesc collections).head?

/-- Documents of a named collection (`db[name].find({}, {'_id': 0})`,
before the projection). -/
def collectionDocs (st : MongoState) (database coll : String) : List Doc :=
  ((st.colls database).lookup coll).getD []

/-- A fetched document as a JSON object (after the `_id` projection). -/
def docToJ (d : Doc) : JValue := .jobj (stripId d)

/-- The per-database entry appended to `all_data`: the dict literal
`{"database": ..., "collection": ..., "data": documents}`;
`None` when no collection matches (the loop does `continue`). -/
def dbEntry (st : MongoState) (database : String) : Option JValue :=
  match get_latest_collection st database with
  | none => none
  | some c => some (.jobj
      [("database", .jstr database), ("collection", .jstr c),
       ("data", .jarr ((collectionDocs st database c).map docToJ))])

/-- The `all_data` list built over `DATABASES`. -/
def allData (st : MongoState) : JValue := .jarr (DATABASES.filterMap (dbEntry st))

/-- `data_string = json.dumps(all_data, sort_keys=True)`. -/
def data_string (st : MongoState) : String := dumps (allData st)

/-- `data_hash = hashlib.md5(data_string.encode()).hexdigest()`. -/
def computeHash (st : MongoState) : String := md5HexOfString (data_string st)

/-- `get_mongodb_data_hash` with its connection retry loop
(`max_retries = 3`): the hash is computed at the first attempt whose
connection succeeds (`connOk i` is attempt `i` succeeding); when all
three attempts fail the function returns `None`. -/
def get_mongodb_data_hash (connOk : Nat → Bool) (st : MongoState) : Option String :=
  if connOk 0 || connOk 1 || connOk 2 then some (computeHash st) else none

/-- Python's `str.strip()`: remove leading and trailing whitespace. -/
def pyStrip (s : String) : String :=
  String.mk ((((s.data.dropWhile Char.isWhitespace).reverse).dropWhile
    Char.isWhitespace).reverse)

/-- Result of one `has_data_changed` invocation: the returned Boolean,
the content of `last_data_hash.txt` afterwards (`none` = file absent),
and the list of writes performed on that file, in order. -/
structure DetectorRun where
  changed : Bool
  hashFile : Option String
  writes : List String
deriving DecidableEq, Repr

/-- `has_data_changed`, over the computed hash (`None` when
`get_mongodb_data_hash` failed) and the current hash-file state. -/
def has_data_changed (currentHash : Option String) (hashFile : Option String) :
    DetectorRun :=
  match currentHash with
  | none => ⟨false, hashFile, []⟩
  | some h =>
    match hashFile with
    | none => ⟨true, some h, [h]⟩
    | some content =>
      let previous_hash := pyStrip content
      if h ≠ previous_hash then ⟨true, some h, [h]⟩
      else ⟨false, some content, []⟩

/-- The stdout token printed by `check_mongo_changes.py.__main__`:
`YES_CHANGED` / `NO_CHANGED` from the returned Boolean, `ERROR` when
`has_data_changed` raised. -/
def detectorOutput : Except Unit Bool → String
  | .ok true => "YES_CHANGED"
  | .ok false => "NO_CHANGED"
  | .error _ => "ERROR"

/-- A run of `check_mongo_changes.py.__main__` in which
`has_data_changed` completes without raising: the stdout token and the
resulting hash-file content. -/
def detectorMain (connOk : Nat → Bool) (st : MongoState) (hashFile : Option String) :
    String × Option String :=
  let r := has_data_changed (get_mongodb_data_hash connOk st) hashFile
  (detectorOutput (.ok r.changed), r.hashFile)

/-! ### `main.py`: the supervisor -/

/-- Is `pat` a contiguous sublist of the second list? -/
def charsInfixOf (pat : List Char) : List Char → Bool
  | [] => pat.isEmpty
  | s@(_ :: rest) => pat.isPrefixOf s || charsInfixOf pat rest

/-- Python's `in` operator on strings: substring containment. -/
def pyIn (pat s : String) : Bool := charsInfixOf pat.data s.data

/-- Outcome of one spawn of a subprocess as seen by the supervisor:
either `communicate(timeout=...)` raised `TimeoutExpired`, or the
subprocess completed with the given stdout text. -/
inductive SpawnOutcome where
  | timeout : SpawnOutcome
  | completed : String → SpawnOutcome

/-- The retry loop of `check_mongodb_changes` in `main.py`, entered at
some attempt with `remaining + 1` attempts still available (`retry <
max_retries - 1` is `remaining ≠ 0`).  `outcomes i` is what spawn
number `i` (0-based) does.  The `ERROR` branch and the
unrecognized-output branch of the source behave identically (log,
retry, finally return `False`), as does the timeout branch.  Returns
the Boolean result and the number of spawns performed. -/
def checkLoop (outcomes : Nat → SpawnOutcome) : Nat → Nat → Bool × Nat
  | _, 0 => (false, 0)
  | i, remaining + 1 =>
    match outcomes i with
    | .completed out =>
      if pyIn "YES_CHANGED" out then (true, 1)
      else if pyIn "NO_CHANGED" out then (false, 1)
      else if remaining = 0 then (false, 1)
      else
        let r := checkLoop outcomes (i + 1) remaining
        (r.1, r.2 + 1)
    | .timeout =>
      if remaining = 0 then (false, 1)
      else
        let r := checkLoop outcomes (i + 1) remaining
        (r.1, r.2 + 1)

/-- `check_mongodb_changes` (`max_retries = 3`): result Boolean and the
number of detector spawns attempted. -/
def check_mongodb_changes (outcomes : Nat → SpawnOutcome) : Bool × Nat :=
  checkLoop outcomes 0 3

/-! ### `get_mongo_data.py`: the data refresher -/

/-- The sub-directory choice of `fetch_and_save_data`. -/
def subDir (database : String) : String :=
  if pyIn "BB" database then "BB"
  else if pyIn "UD" database then "UD"
  else "Other"

/-- `fetch_and_save_data` for one database (`get_mongo_data.py` has the
same prefix-max collection rule as `check_mongo_changes.py`, shared
here as `get_latest_collection`): `None` on a per-database failure (no
prefix-matching collection, or zero records fetched), otherwise the
path of the CSV snapshot written.  `now` stands for the
`datetime.now()` timestamp in the file name; the POSIX path separator
is used. -/
def fetch_and_save_data (st : MongoState) (database now : String) : Option String :=
  let output_file := "Get_Data/" ++ subDir database ++ "/mongodb_data_" ++ now ++ ".csv"
  match get_latest_collection st database with
  | none => none
  | some c =>
    let data := collectionDocs st database c
    if data.length = 0 then none else some output_file

/-- The `__main__` of `get_mongo_data.py`: the `NetworkDataFetch`
constructor retries the connection three times and raises out of the
program when all fail (Python exits with code 1 on an uncaught
exception); afterwards every per-database exception or failure is
caught and logged by the loop, which always runs to completion.
Returns the process exit code and the per-database outcomes. -/
def refresherMain (connOk : Nat → Bool) (st : MongoState) (now : String) :
    Nat × List (String × Option String) :=
  if connOk 0 || connOk 1 || connOk 2 then
    (0, DATABASES.map (fun db => (db, fetch_and_save_data st db now)))
  else (1, [])

/-! ### `API.py`: latest-snapshot selection -/

/-- Does a file name match the `mongodb_data_*.csv` glob pattern? -/
def matchesSnapshotGlob (name : String) : Bool :=
  pyStartsWith name "mongodb_data_" && name.data.length ≥ 17 &&
    ".csv".data.isSuffixOf name.data

/-- Python's `max(files, key=os.path.getctime)` over (name, ctime)
pairs: scan left to right, replacing the current maximum only when a
strictly greater key appears. -/
def pyMaxByCtime : List (String × Nat) → Option (String × Nat)
  | [] => none
  | x :: xs => some (xs.foldl (fun acc y => if acc.2 < y.2 then y else acc) x)

/-- The files of a directory listing that `glob` returns for
`mongodb_data_*.csv`. -/
def snapshotMatches (files : List (String × Nat)) : List (String × Nat) :=
  files.filter (fun f => matchesSnapshotGlob f.1)

/-- The core of `get_latest_csv`: glob the directory listing (each
entry a name with its creation time) and take the ctime-maximal match;
`none` models the `FileNotFoundError` raised when no file matches. -/
def get_latest_csv (files : List (String × Nat)) : Option (String × Nat) :=
  pyMaxByCtime (snapshotMatches files)

/-! ### The supervisor loop state (`main.py.main`) -/

/-- The classification `main.py` applies to the detector's stdout:
`Some result` when a token is recognized, `none` when the attempt must
be retried. -/
def classifyStdout (out : String) : Option Bool :=
  if pyIn "YES_CHANGED" out then some true
  else if pyIn "NO_CHANGED" out then some false
  else none

/-- The supervisor's CHECKING step in the regime where the spawned
detector subprocess runs to completion: the detector executes over the
store and the hash file, its stdout (token plus the newline `print`
appends) is classified; a recognized token ends the retry loop at the
first spawn.  Returns the change verdict and the hash file content
after the step. -/
def supervisorCheck (connOk : Nat → Bool) (st : MongoState) (fs : Option String) :
    Bool × Option String :=
  let r := detectorMain connOk st fs
  match classifyStdout (r.1 ++ "\n") with
  | some b => (b, r.2)
  | none => (false, r.2)

/-- One iteration of the supervisor's main loop: the CHECKING step,
then — only on a reported change — the refresher subprocess, whose
success flag `refreshOk` is merely logged (`main.py` never touches the
hash file).  Returns the hash-file content afterwards, whether a
refresh was attempted, and whether it succeeded. -/
def supervisorIteration (connOk : Nat → Bool) (st : MongoState) (refreshOk : Bool)
    (fs : Option String) : Option String × Bool × Bool :=
  let c := supervisorCheck connOk st fs
  (c.2, c.1, c.1 && refreshOk)

/-- `api_process` after startup: `None` when the port probe found the
API server already listening, otherwise the handle of the spawned
server. -/
def mainInitApiProcess (apiRunning : Bool) (spawnPid : Nat) : Option Nat :=
  if apiRunning then none else some spawnPid

/-- The API-server bookkeeping of one supervisor loop iteration:
restart only when a handle is held and `poll()` reports an exit. -/
def apiIterate (exited : Bool) (newPid : Nat) : Option Nat → Option Nat
  | none => none
  | some p => if exited then some newPid else some p

/-- `api_process` after `n` supervisor loop iterations; `exited i` is
what `poll()` reports at iteration `i` and `newPids i` the pid a
restart at iteration `i` would produce. -/
def apiLoop (exited : Nat → Bool) (newPids : Nat → Nat) : Nat → Option Nat → Option Nat
  | 0, s => s
  | n + 1, s => apiLoop exited newPids n (apiIterate (exited n) (newPids n) s)

/-- Whether the shutdown path (`KeyboardInterrupt` handler) calls
`api_process.terminate()`. -/
def shutdownTerminates : Option Nat → Bool
  | none => false
  | some _ => true

/-! ### Order lemmas for the `sort_keys=True` key order -/

theorem char_eq_of_toNat_eq {a b : Char} (h : a.toNat = b.toNat) : a = b := by
  have h2 := congrArg Char.ofNat h
  simpa [Char.ofNat_toNat] using h2

theorem charsLe_total : ∀ a b : List Char, charsLe a b = true ∨ charsLe b a = true
  | [], _ => Or.inl rfl
  | _ :: _, [] => Or.inr rfl
  | a :: as, b :: bs => by
    simp only [charsLe]
    rcases Nat.lt_trichotomy a.toNat b.toNat with h | h | h
    · left
      simp [h]
    · rcases charsLe_total as bs with hc | hc
      · left
        simp [h, hc]
      · right
        simp [h, hc]
    · right
      simp [h]

theorem charsLe_trans : ∀ a b c : List Char,
    charsLe a b = true → charsLe b c = true → charsLe a c = true
  | [], _, _, _, _ => rfl
  | _ :: _, [], _, h1, _ => by simp [charsLe] at h1
  | _ :: _, _ :: _, [], _, h2 => by simp [charsLe] at h2
  | a :: as, b :: bs, c :: cs, h1, h2 => by
    simp only [charsLe] at h1 h2 ⊢
    rcases Nat.lt_trichotomy a.toNat b.toNat with hab | hab | hab
    · rcases Nat.lt_trichotomy b.toNat c.toNat with hbc | hbc | hbc
      · simp [show a.toNat < c.toNat by omega]
      · simp [show a.toNat < c.toNat by omega]
      · simp [Nat.lt_asymm hbc, hbc] at h2
    · rcases Nat.lt_trichotomy b.toNat c.toNat with hbc | hbc | hbc
      · simp [show a.toNat < c.toNat by omega]
      · simp only [hab, lt_self_iff_false, if_false] at h1
        simp only [hbc, lt_self_iff_false, if_false] at h2
        have hac : a.toNat = c.toNat := by omega
        simp only [hac, lt_self_iff_false, if_false]
        exact charsLe_trans as bs cs h1 h2
      · simp [Nat.lt_asymm hbc, hbc] at h2
    · simp [Nat.lt_asymm hab, hab] at h1

theorem charsLe_antisymm : ∀ a b : List Char,
    charsLe a b = true → charsLe b a = true → a = b
  | [], [], _, _ => rfl
  | [], _ :: _, _, h2 => by simp [charsLe] at h2
  | _ :: _, [], h1, _ => by simp [charsLe] at h1
  | a :: as, b :: bs, h1, h2 => by
    simp only [charsLe] at h1 h2
    rcases Nat.lt_trichotomy a.toNat b.toNat with hab | hab | hab
    · simp [Nat.lt_asymm hab, hab] at h2
    · have hab' : a = b := char_eq_of_toNat_eq hab
      subst hab'
      simp only [lt_self_iff_false, if_false] at h1 h2
      rw [charsLe_antisymm as bs h1 h2]
    · simp [Nat.lt_asymm hab, hab] at h1

theorem pyLe_antisymm {a b : String} (h1 : pyLe a b) (h2 : pyLe b a) : a = b := by
  cases a with
  | mk da =>
    cases b with
    | mk db => exact congrArg String.mk (charsLe_antisymm da db h1 h2)

instance : IsTotal (String × String) keyLE :=
  ⟨fun a b => charsLe_total a.1.data b.1.data⟩

instance : IsTrans (String × String) keyLE :=
  ⟨fun a b c h1 h2 => charsLe_trans a.1.data b.1.data c.1.data h1 h2⟩

/-- Strict refinement of `keyLE` used to see that sorted entry lists
with distinct keys are unique. -/
def keyLT (a b : String × String) : Prop := keyLE a b ∧ a.1 ≠ b.1

instance : IsAntisymm (String × String) keyLT :=
  ⟨fun _ _ h1 h2 => absurd (pyLe_antisymm h1.1 h2.1) h1.2⟩

theorem pairwise_and {α : Type} {R S : α → α → Prop} :
    ∀ {l : List α}, l.Pairwise R → l.Pairwise S →
      l.Pairwise fun a b => R a b ∧ S a b := by
  intro l h1 h2
  induction l with
  | nil => exact List.Pairwise.nil
  | cons x xs ih =>
    rcases List.pairwise_cons.mp h1 with ⟨hx1, hxs1⟩
    rcases List.pairwise_cons.mp h2 with ⟨hx2, hxs2⟩
    exact List.pairwise_cons.mpr ⟨fun y hy => ⟨hx1 y hy, hx2 y hy⟩, ih hxs1 hxs2⟩

theorem sorted_strict_of_nodup_keys {l : List (String × String)}
    (hs : l.Sorted keyLE) (hn : (l.map Prod.fst).Nodup) : l.Sorted keyLT := by
  have hp : l.Pairwise fun a b => a.1 ≠ b.1 := (List.pairwise_map).mp hn
  exact pairwise_and hs hp

/-- `sort_keys=True` is insensitive to the insertion order of a dict
with duplicate-free keys: permuted entry lists sort identically. -/
theorem sortEntries_perm_eq {l1 l2 : List (String × String)}
    (hp : l1.Perm l2) (hn : (l1.map Prod.fst).Nodup) :
    sortEntries l1 = sortEntries l2 := by
  have hperm : (sortEntries l1).Perm (sortEntries l2) :=
    ((List.perm_insertionSort keyLE l1).trans hp).trans
      (List.perm_insertionSort keyLE l2).symm
  have hn1 : ((sortEntries l1).map Prod.fst).Nodup :=
    (((List.perm_insertionSort keyLE l1).map Prod.fst).nodup_iff).mpr hn
  have hn2 : ((sortEntries l2).map Prod.fst).Nodup :=
    ((hperm.map Prod.fst).nodup_iff).mp hn1
  exact List.eq_of_perm_of_sorted hperm
    (sorted_strict_of_nodup_keys (List.sorted_insertionSort keyLE l1) hn1)
    (sorted_strict_of_nodup_keys (List.sorted_insertionSort keyLE l2) hn2)

/-! ### Congruence of the fingerprint under per-record key reordering -/

theorem dumpsList_eq_map : ∀ xs : List JValue, dumpsList xs = xs.map dumps
  | [] => rfl
  | x :: xs => by rw [dumpsList, List.map_cons, dumpsList_eq_map xs]

theorem dumpsFields_eq_map : ∀ fs : List (String × JValue),
    dumpsFields fs = fs.map (fun kv => (kv.1, dumps kv.2))
  | [] => rfl
  | (k, v) :: fs => by rw [dumpsFields, List.map_cons, dumpsFields_eq_map fs]

theorem dumpsFields_map_fst (fs : List (String × JValue)) :
    (dumpsFields fs).map Prod.fst = fs.map Prod.fst := by
  rw [dumpsFields_eq_map, List.map_map]
  rfl

/-- Serializing arrays respects element-wise serialization equality. -/
theorem dumps_jarr_congr {xs ys : List JValue} (h : dumpsList xs = dumpsList ys) :
    dumps (.jarr xs) = dumps (.jarr ys) := by
  simp only [dumps]
  rw [h]

/-- Serializing objects respects entry-wise serialization equality. -/
theorem dumps_jobj_fields_eq {fs1 fs2 : List (String × JValue)}
    (h : dumpsFields fs1 = dumpsFields fs2) :
    dumps (.jobj fs1) = dumps (.jobj fs2) := by
  simp only [dumps, renderEntries]
  rw [h]

/-- A dict with duplicate-free keys serializes the same under any
insertion order of its fields (`sort_keys=True`). -/
theorem dumps_jobj_congr_perm {fs1 fs2 : List (String × JValue)}
    (hp : fs1.Perm fs2) (hn : (fs1.map Prod.fst).Nodup) :
    dumps (.jobj fs1) = dumps (.jobj fs2) := by
  simp only [dumps, renderEntries]
  have hperm : (dumpsFields fs1).Perm (dumpsFields fs2) := by
    rw [dumpsFields_eq_map fs1, dumpsFields_eq_map fs2]
    exact hp.map _
  have hnd : ((dumpsFields fs1).map Prod.fst).Nodup := by
    rw [dumpsFields_map_fst]
    exact hn
  rw [sortEntries_perm_eq hperm hnd]

/-- A fetched record serializes identically when its fields are
reordered (duplicate-free keys). -/
theorem docToJ_dumps_congr {d1 d2 : Doc} (hp : (stripId d1).Perm (stripId d2))
    (hn : ((stripId d1).map Prod.fst).Nodup) :
    dumps (docToJ d1) = dumps (docToJ d2) :=
  dumps_jobj_congr_perm hp hn

/-- Pointwise equality of document sequences up to per-record field
order: corresponding records hold the same projected field set, with
duplicate-free keys, possibly in different insertion orders. -/
def DocsKeyPermEq (ds1 ds2 : List Doc) : Prop :=
  List.Forall₂ (fun d1 d2 => (stripId d1).Perm (stripId d2) ∧
    ((stripId d1).map Prod.fst).Nodup) ds1 ds2

/-- Store equivalence for the amended C2: per database the same
collection names in the same listing order, and per collection the same
documents in the same iteration order, each record equal up to field
order. -/
def StateKeyPermEq (st1 st2 : MongoState) : Prop :=
  ∀ db, List.Forall₂ (fun c1 c2 => c1.1 = c2.1 ∧ DocsKeyPermEq c1.2 c2.2)
    (st1.colls db) (st2.colls db)

theorem forall2_map_fst_eq {β : Type} {P : (String × β) → (String × β) → Prop}
    {l1 l2 : List (String × β)}
    (h : List.Forall₂ (fun c1 c2 => c1.1 = c2.1 ∧ P c1 c2) l1 l2) :
    l1.map Prod.fst = l2.map Prod.fst := by
  induction h with
  | nil => rfl
  | cons hx _ ih => simp only [List.map_cons, hx.1, ih]

theorem get_latest_collection_congr {st1 st2 : MongoState}
    (h : StateKeyPermEq st1 st2) (db : String) :
    get_latest_collection st1 db = get_latest_collection st2 db := by
  unfold get_latest_collection
  rw [forall2_map_fst_eq (h db)]

theorem lookup_docs_congr {l1 l2 : List (String × List Doc)}
    (h : List.Forall₂ (fun c1 c2 => c1.1 = c2.1 ∧ DocsKeyPermEq c1.2 c2.2) l1 l2)
    (name : String) :
    DocsKeyPermEq ((l1.lookup name).getD []) ((l2.lookup name).getD []) := by
  induction h with
  | nil => exact List.Forall₂.nil
  | cons hx hxs ih =>
    obtain ⟨hname, hdocs⟩ := hx
    simp only [List.lookup, ← hname]
    cases hbeq : name == _ with
    | true => simpa using hdocs
    | false => simpa using ih

theorem collectionDocs_congr {st1 st2 : MongoState}
    (h : StateKeyPermEq st1 st2) (db c : String) :
    DocsKeyPermEq (collectionDocs st1 db c) (collectionDocs st2 db c) :=
  lookup_docs_congr (h db) c

theorem dumpsList_docs_congr {ds1 ds2 : List Doc} (h : DocsKeyPermEq ds1 ds2) :
    dumpsList (ds1.map docToJ) = dumpsList (ds2.map docToJ) := by
  rw [dumpsList_eq_map, dumpsList_eq_map, List.map_map, List.map_map]
  induction h with
  | nil => rfl
  | cons hx _ ih =>
    simp only [List.map_cons, Function.comp]
    rw [docToJ_dumps_congr hx.1 hx.2]
    simpa [Function.comp] using ih

/-- Serialization equality on optional per-database entries. -/
def OptDumpsEq : Option JValue → Option JValue → Prop
  | none, none => True
  | some v1, some v2 => dumps v1 = dumps v2
  | _, _ => False

theorem dbEntry_congr {st1 st2 : MongoState} (h : StateKeyPermEq st1 st2)
    (db : String) : OptDumpsEq (dbEntry st1 db) (dbEntry st2 db) := by
  unfold dbEntry
  rw [get_latest_collection_congr h db]
  cases hc : get_latest_collection st2 db with
  | none => exact trivial
  | some c =>
    show dumps _ = dumps _
    apply dumps_jobj_fields_eq
    simp only [dumpsFields]
    rw [dumps_jarr_congr (dumpsList_docs_congr (collectionDocs_congr h db c))]

theorem dumpsList_filterMap_congr {f g : String → Option JValue} :
    ∀ dbs : List String, (∀ db ∈ dbs, OptDumpsEq (f db) (g db)) →
      dumpsList (dbs.filterMap f) = dumpsList (dbs.filterMap g)
  | [], _ => rfl
  | db :: dbs, h => by
    have hdb := h db (List.mem_cons_self db dbs)
    have hrest := dumpsList_filterMap_congr dbs (fun d hd => h d (List.mem_cons_of_mem db hd))
    simp only [List.filterMap_cons]
    cases hf : f db with
    | none =>
      cases hg : g db with
      | none => exact hrest
      | some v2 => rw [hf, hg] at hdb; exact absurd hdb (by simp [OptDumpsEq])
    | some v1 =>
      cases hg : g db with
      | none => rw [hf, hg] at hdb; exact absurd hdb (by simp [OptDumpsEq])
      | some v2 =>
        rw [hf, hg] at hdb
        rw [dumpsList, dumpsList, hrest]
        show (dumps v1 :: _) = (dumps v2 :: _)
        rw [hdb]

/-- The fingerprint digest is invariant under per-record key
reordering. -/
theorem computeHash_congr {st1 st2 : MongoState} (h : StateKeyPermEq st1 st2) :
    computeHash st1 = computeHash st2 := by
  unfold computeHash data_string allData
  rw [dumps_jarr_congr (dumpsList_filterMap_congr DATABASES
    (fun db _ => dbEntry_congr h db))]

/-! ### `strip()` is the identity on hex digests -/

theorem dropWhile_eq_self {p : Char → Bool} :
    ∀ {l : List Char}, (∀ c ∈ l, p c = false) → l.dropWhile p = l
  | [], _ => rfl
  | c :: cs, h => by
    have hc := h c (List.mem_cons_self c cs)
    simp [List.dropWhile_cons, hc]

theorem pyStrip_eq_self {s : String}
    (h : ∀ c ∈ s.data, c.isWhitespace = false) : pyStrip s = s := by
  unfold pyStrip
  rw [dropWhile_eq_self h,
    dropWhile_eq_self (fun c hc => h c (List.mem_reverse.mp hc)),
    List.reverse_reverse]

theorem hexDigitChar_not_ws {n : Nat} (h : n < 16) :
    (hexDigitChar n).isWhitespace = false := by
  interval_cases n <;> decide

theorem md5Hex_chars_not_ws (msg : List Nat) :
    ∀ c ∈ (md5Hex msg).data, c.isWhitespace = false := by
  intro c hc
  have hc2 : c ∈ (md5Digest msg).flatMap
      (fun b => [hexDigitChar (b / 16 % 16), hexDigitChar (b % 16)]) := hc
  rw [List.mem_flatMap] at hc2
  obtain ⟨b, _, hcb⟩ := hc2
  rcases List.mem_cons.mp hcb with h | h
  · rw [h]
    exact hexDigitChar_not_ws (Nat.mod_lt _ (by omega))
  · rw [List.mem_singleton.mp h]
    exact hexDigitChar_not_ws (Nat.mod_lt _ (by omega))

theorem pyStrip_md5Hex (msg : List Nat) : pyStrip (md5Hex msg) = md5Hex msg :=
  pyStrip_eq_self (md5Hex_chars_not_ws msg)

/-- Reading the fingerprint back with `strip()` returns it verbatim. -/
theorem pyStrip_computeHash (st : MongoState) :
    pyStrip (computeHash st) = computeHash st :=
  pyStrip_md5Hex _

/-! ### The supervisor's check retry bound -/

/-- Attempt outcomes on which the supervisor's check loop cannot
conclude: a timeout, or completed output containing neither
`YES_CHANGED` nor `NO_CHANGED` (this covers both the `ERROR` branch
and the unrecognized-output branch of the source). -/
def failishOutcome : SpawnOutcome → Prop
  | .timeout => True
  | .completed out => pyIn "YES_CHANGED" out = false ∧ pyIn "NO_CHANGED" out = false

theorem checkLoop_fail {outcomes : Nat → SpawnOutcome}
    (h : ∀ i, failishOutcome (outcomes i)) :
    ∀ rem i : Nat, checkLoop outcomes i (rem + 1) = (false, rem + 1)
  | 0, i => by
    rw [checkLoop.eq_2]
    cases ho : outcomes i with
    | timeout => simp
    | completed out =>
      have hf := h i
      rw [ho] at hf
      simp [hf.1, hf.2]
  | rem + 1, i => by
    have ih := checkLoop_fail h rem (i + 1)
    rw [checkLoop.eq_2]
    cases ho : outcomes i with
    | timeout => simp [ih]
    | completed out =>
      have hf := h i
      rw [ho] at hf
      simp [hf.1, hf.2, ih]

/-- Whether the supervisor's loop body runs the refresher, given the
check verdict (`if check_mongodb_changes(): run_get_mongo_data()`). -/
def refreshTriggered (checkResult : Bool) : Bool := checkResult

/-! ### `max(..., key=os.path.getctime)` -/

theorem ctFold_spec : ∀ (xs : List (String × Nat)) (x : String × Nat),
    (xs.foldl (fun acc y => if acc.2 < y.2 then y else acc) x) ∈ x :: xs ∧
    x.2 ≤ (xs.foldl (fun acc y => if acc.2 < y.2 then y else acc) x).2 ∧
    ∀ y ∈ xs, y.2 ≤ (xs.foldl (fun acc y => if acc.2 < y.2 then y else acc) x).2
  | [], x => ⟨List.mem_cons_self x [], Nat.le_refl _, by simp⟩
  | y :: ys, x => by
    obtain ⟨h1, h2, h3⟩ := ctFold_spec ys (if x.2 < y.2 then y else x)
    rw [List.foldl_cons]
    refine ⟨?_, ?_, ?_⟩
    · rcases List.mem_cons.mp h1 with h | h
      · rw [h]
        split_ifs
        · exact List.mem_cons_of_mem x (List.mem_cons_self y ys)
        · exact List.mem_cons_self x (y :: ys)
      · exact List.mem_cons_of_mem x (List.mem_cons_of_mem y h)
    · refine Nat.le_trans ?_ h2
      split_ifs with hxy
      · exact Nat.le_of_lt hxy
      · exact Nat.le_refl _
    · intro z hz
      rcases List.mem_cons.mp hz with h | h
      · subst h
        refine Nat.le_trans ?_ h2
        split_ifs with hxy
        · exact Nat.le_refl _
        · omega
      · exact h3 z h

theorem ctime_max_unique {m : List (String × Nat)}
    (hpw : m.Pairwise fun a b => a.2 ≠ b.2) {f r : String × Nat}
    (hf : f ∈ m) (hr : r ∈ m) (hfmax : ∀ y ∈ m, y.2 ≤ f.2)
    (hrmax : ∀ y ∈ m, y.2 ≤ r.2) : r = f := by
  by_contra hne
  have hdiff : r.2 ≠ f.2 :=
    hpw.forall (fun _ _ hab => Ne.symm hab) hr hf hne
  have hle1 := hfmax r hr
  have hle2 := hrmax f hf
  omega

/-! ### Concrete stores used by counterexamples and witnesses -/

/-- A store with no `Net_Data_` collection in any database. -/
def stEmpty : MongoState := ⟨fun _ => []⟩

/-- A one-field record. -/
def docA : Doc := [("a", .jint 1)]

/-- Another one-field record. -/
def docB : Doc := [("b", .jint 2)]

/-- A store whose BB database returns `docA, docB` in that iteration
order. -/
def stIterA : MongoState :=
  ⟨fun db => if db = "BACHV_BB_STOCKS" then [("Net_Data_1", [docA, docB])] else []⟩

/-- The same records in the opposite iteration order. -/
def stIterB : MongoState :=
  ⟨fun db => if db = "BACHV_BB_STOCKS" then [("Net_Data_1", [docB, docA])] else []⟩

/-- A two-field record with keys in insertion order `a, b`. -/
def docKeysAB : Doc := [("a", .jint 1), ("b", .jint 2)]

/-- The same record with keys in insertion order `b, a`. -/
def docKeysBA : Doc := [("b", .jint 2), ("a", .jint 1)]

/-- A store holding the record with `a, b` key order. -/
def stKeysA : MongoState :=
  ⟨fun db => if db = "BACHV_BB_STOCKS" then [("Net_Data_1", [docKeysAB])] else []⟩

/-- A store holding the same record with `b, a` key order. -/
def stKeysB : MongoState :=
  ⟨fun db => if db = "BACHV_BB_STOCKS" then [("Net_Data_1", [docKeysBA])] else []⟩

/-! ### The claims -/

/-- C1, counterexample: when the store is unreachable on every
connection attempt, the Change Detector completes normally and prints
`NO_CHANGED` — not `ERROR` as the claim states (`has_data_changed`
maps a failed hash computation to `False`). -/
theorem C1_counterexample :
    (detectorMain (fun _ => false) stEmpty none).1 = "NO_CHANGED" ∧
    (detectorMain (fun _ => false) stEmpty none).1 ≠ "ERROR" := by decide

/-- C1, amended: when the store is unreachable on all three connection
attempts and the run completes without raising, the detector prints
`NO_CHANGED` (and leaves the hash file untouched); the three tokens
`YES_CHANGED`, `NO_CHANGED`, `ERROR` remain the only possible outputs
of a detector run and are pairwise distinct. -/
theorem C1_amended (connOk : Nat → Bool) (st : MongoState) (fs : Option String)
    (h : connOk 0 = false ∧ connOk 1 = false ∧ connOk 2 = false) :
    detectorMain connOk st fs = ("NO_CHANGED", fs) ∧
    (∀ r : Except Unit Bool,
      detectorOutput r = "YES_CHANGED" ∨ detectorOutput r = "NO_CHANGED" ∨
        detectorOutput r = "ERROR") ∧
    ("YES_CHANGED" ≠ "NO_CHANGED" ∧ "YES_CHANGED" ≠ "ERROR" ∧
      "NO_CHANGED" ≠ "ERROR") := by
  refine ⟨?_, ?_, by decide⟩
  · simp [detectorMain, get_mongodb_data_hash, h.1, h.2.1, h.2.2,
      has_data_changed, detectorOutput]
  · intro r
    rcases r with e | b
    · right; right; rfl
    · cases b
      · right; left; rfl
      · left; rfl

/-- C1, witness for the amended theorem at a concrete unreachable
store. -/
theorem C1_amended_witness :
    ((fun _ : Nat => false) 0 = false ∧ (fun _ : Nat => false) 1 = false ∧
      (fun _ : Nat => false) 2 = false) ∧
    (detectorMain (fun _ => false) stEmpty none = ("NO_CHANGED", none) ∧
      (∀ r : Except Unit Bool,
        detectorOutput r = "YES_CHANGED" ∨ detectorOutput r = "NO_CHANGED" ∨
          detectorOutput r = "ERROR") ∧
      ("YES_CHANGED" ≠ "NO_CHANGED" ∧ "YES_CHANGED" ≠ "ERROR" ∧
        "NO_CHANGED" ≠ "ERROR")) :=
  ⟨by decide, C1_amended (fun _ => false) stEmpty none (by decide)⟩

/-- C2, counterexample: two stores holding the same set of records —
the two documents merely swapped in collection-iteration order —
produce different fingerprint digests, because `json.dumps(...,
sort_keys=True)` sorts only mapping keys and preserves list order. -/
theorem C2_counterexample :
    stIterA.colls "BACHV_BB_STOCKS" = [("Net_Data_1", [docA, docB])] ∧
    stIterB.colls "BACHV_BB_STOCKS" = [("Net_Data_1", [docB, docA])] ∧
    [docA, docB].Perm [docB, docA] ∧
    computeHash stIterA ≠ computeHash stIterB := by
  refine ⟨rfl, rfl, List.Perm.swap docB docA [], ?_⟩
  decide

/-- C2, amended: the fingerprint is deterministic and invariant under
per-record key ordering — for stores equal up to the insertion order of
fields within each record (duplicate-free keys, `_id` projected away),
the digest is identical.  It is not invariant under
collection-iteration order (see the counterexample). -/
theorem C2_amended (st1 st2 : MongoState) (h : StateKeyPermEq st1 st2) :
    computeHash st1 = computeHash st2 :=
  computeHash_congr h

/-- C2, witness: the amended theorem applied to two concrete stores
whose single record has its two fields in opposite insertion orders. -/
theorem C2_amended_witness :
    StateKeyPermEq stKeysA stKeysB ∧ computeHash stKeysA = computeHash stKeysB := by
  have h : StateKeyPermEq stKeysA stKeysB := by
    intro db
    by_cases hdb : db = "BACHV_BB_STOCKS"
    · subst hdb
      refine List.Forall₂.cons ⟨rfl, ?_⟩ List.Forall₂.nil
      refine List.Forall₂.cons ⟨?_, ?_⟩ List.Forall₂.nil
      · show (stripId docKeysAB).Perm (stripId docKeysBA)
        have e1 : stripId docKeysAB = [("a", JValue.jint 1), ("b", JValue.jint 2)] := rfl
        have e2 : stripId docKeysBA = [("b", JValue.jint 2), ("a", JValue.jint 1)] := rfl
        rw [e1, e2]
        exact List.Perm.swap ("b", JValue.jint 2) ("a", JValue.jint 1) []
      · show ((stripId docKeysAB).map Prod.fst).Nodup
        decide
    · simp only [stKeysA, stKeysB, if_neg hdb]
      exact List.Forall₂.nil
  exact ⟨h, C2_amended stKeysA stKeysB h⟩

/-- C3: on a first run (no fingerprint file) with a reachable store,
the detector prints `YES_CHANGED` and seeds the fingerprint file with
the computed digest (exactly one write); an immediately following run
over unchanged store contents prints `NO_CHANGED` and keeps that
file. -/
theorem C3_first_run_seeds (connOk1 connOk2 : Nat → Bool) (st : MongoState)
    (h1 : (connOk1 0 || connOk1 1 || connOk1 2) = true)
    (h2 : (connOk2 0 || connOk2 1 || connOk2 2) = true) :
    detectorMain connOk1 st none = ("YES_CHANGED", some (computeHash st)) ∧
    (has_data_changed (get_mongodb_data_hash connOk1 st) none).writes =
      [computeHash st] ∧
    detectorMain connOk2 st (detectorMain connOk1 st none).2 =
      ("NO_CHANGED", some (computeHash st)) := by
  have e1 : get_mongodb_data_hash connOk1 st = some (computeHash st) := by
    simp [get_mongodb_data_hash, h1]
  have e2 : get_mongodb_data_hash connOk2 st = some (computeHash st) := by
    simp [get_mongodb_data_hash, h2]
  refine ⟨?_, ?_, ?_⟩ <;>
    simp [detectorMain, e1, e2, has_data_changed, detectorOutput,
      pyStrip_computeHash]

/-- C3, witness at a concrete reachable store. -/
theorem C3_first_run_seeds_witness :
    (((fun _ : Nat => true) 0 || (fun _ : Nat => true) 1 ||
        (fun _ : Nat => true) 2) = true) ∧
    (detectorMain (fun _ => true) stKeysA none =
        ("YES_CHANGED", some (computeHash stKeysA)) ∧
      (has_data_changed (get_mongodb_data_hash (fun _ => true) stKeysA) none).writes =
        [computeHash stKeysA] ∧
      detectorMain (fun _ => true) stKeysA
          (detectorMain (fun _ => true) stKeysA none).2 =
        ("NO_CHANGED", some (computeHash stKeysA))) :=
  ⟨by decide, C3_first_run_seeds (fun _ => true) (fun _ => true) stKeysA
    (by decide) (by decide)⟩

/-- C4: when every detector spawn times out, reports `ERROR`, or
yields unrecognized output, the supervisor's check step performs
exactly three spawns, returns the no-change verdict `False`, and
triggers no refresh. -/
theorem C4_retry_bound (outcomes : Nat → SpawnOutcome)
    (h : ∀ i, failishOutcome (outcomes i)) :
    check_mongodb_changes outcomes = (false, 3) ∧
    refreshTriggered (check_mongodb_changes outcomes).1 = false := by
  have e : checkLoop outcomes 0 3 = (false, 3) := checkLoop_fail h 2 0
  unfold check_mongodb_changes refreshTriggered
  rw [e]
  exact ⟨rfl, rfl⟩

/-- C4, witness: a detector that always times out. -/
theorem C4_retry_bound_witness :
    (∀ i : Nat, failishOutcome ((fun _ : Nat => SpawnOutcome.timeout) i)) ∧
    (check_mongodb_changes (fun _ => SpawnOutcome.timeout) = (false, 3) ∧
      refreshTriggered (check_mongodb_changes (fun _ => SpawnOutcome.timeout)).1 =
        false) :=
  ⟨fun _ => trivial, C4_retry_bound (fun _ => SpawnOutcome.timeout) (fun _ => trivial)⟩

/-- C5, counterexample: a run of the Data Refresher in which every
configured database fails per-database (no matching collection
anywhere) still exits with code 0 — the claim's exit-code contract does
not hold for all-database failures. -/
theorem C5_counterexample :
    refresherMain (fun _ => true) stEmpty "20240101_000000" =
      (0, [("BACHV_BB_STOCKS", none), ("BACHV_UD_STOCKS", none)]) := by decide

/-- C5, amended: the Data Refresher's exit code reflects only the
connection phase — 0 exactly when one of the three connection attempts
succeeds (with all per-database outcomes, successes or failures,
merely reported in the loop), and 1 (uncaught exception) exactly when
all attempts fail.  Per-database failures, even of every configured
database, do not make the exit code non-zero. -/
theorem C5_amended (connOk : Nat → Bool) (st : MongoState) (now : String) :
    refresherMain connOk st now =
      (if (connOk 0 || connOk 1 || connOk 2) = true then 0 else 1,
       if (connOk 0 || connOk 1 || connOk 2) = true then
         DATABASES.map (fun db => (db, fetch_and_save_data st db now))
       else []) := by
  unfold refresherMain
  cases hc : (connOk 0 || connOk 1 || connOk 2) <;> simp [hc]

/-- C6: per-database outcomes of the refresher are independent: the
result list always pairs every configured database with its own
`fetch_and_save_data` outcome (a failure elsewhere cannot suppress an
entry), and a database with a matching non-empty collection yields its
snapshot path. -/
theorem C6_missing_collection_tolerance (connOk : Nat → Bool) (st : MongoState)
    (now db c : String)
    (hconn : (connOk 0 || connOk 1 || connOk 2) = true)
    (_hdb : db ∈ DATABASES)
    (hc : get_latest_collection st db = some c)
    (hne : (collectionDocs st db c).length ≠ 0) :
    (refresherMain connOk st now).2 =
      DATABASES.map (fun d => (d, fetch_and_save_data st d now)) ∧
    fetch_and_save_data st db now =
      some ("Get_Data/" ++ subDir db ++ "/mongodb_data_" ++ now ++ ".csv") := by
  constructor
  · simp [refresherMain, hconn]
  · simp [fetch_and_save_data, hc, hne]

/-- C6, witness: the BB database has a non-empty matching collection
while the UD database has none, and a snapshot path is still
produced. -/
theorem C6_missing_collection_tolerance_witness :
    (((fun _ : Nat => true) 0 || (fun _ : Nat => true) 1 ||
        (fun _ : Nat => true) 2) = true) ∧
    "BACHV_BB_STOCKS" ∈ DATABASES ∧
    get_latest_collection stKeysA "BACHV_BB_STOCKS" = some "Net_Data_1" ∧
    (collectionDocs stKeysA "BACHV_BB_STOCKS" "Net_Data_1").length ≠ 0 ∧
    ((refresherMain (fun _ => true) stKeysA "t").2 =
        DATABASES.map (fun d => (d, fetch_and_save_data stKeysA d "t")) ∧
      fetch_and_save_data stKeysA "BACHV_BB_STOCKS" "t" =
        some ("Get_Data/" ++ subDir "BACHV_BB_STOCKS" ++ "/mongodb_data_" ++
          "t" ++ ".csv")) :=
  ⟨by decide, by decide, by decide, by decide,
    C6_missing_collection_tolerance (fun _ => true) stKeysA "t"
      "BACHV_BB_STOCKS" "Net_Data_1" (by decide) (by decide) (by decide)
      (by decide)⟩

/-- C7: each `has_data_changed` invocation performs at most one
fingerprint-file write, writes exactly when it reports a change
(including the first-run seeding), and leaves the file content
untouched on the no-change result — which covers both the unchanged
case and the failed-hash (`ERROR`-side) case. -/
theorem C7_fingerprint_write_discipline (currentHash fs : Option String) :
    ((has_data_changed currentHash fs).writes).length ≤ 1 ∧
    ((has_data_changed currentHash fs).changed = true ↔
      (has_data_changed currentHash fs).writes ≠ []) ∧
    ((has_data_changed currentHash fs).changed = false →
      (has_data_changed currentHash fs).hashFile = fs) := by
  cases currentHash with
  | none => simp [has_data_changed]
  | some h =>
    cases fs with
    | none => simp [has_data_changed]
    | some content =>
      by_cases hne : h = pyStrip content <;> simp [has_data_changed, hne]

/-- C7, witness: a failed hash computation leaves the stored
fingerprint untouched. -/
theorem C7_fingerprint_write_discipline_witness :
    (has_data_changed none (some "abc")).changed = false ∧
    (has_data_changed none (some "abc")).hashFile = some "abc" :=
  ⟨by decide, (C7_fingerprint_write_discipline none (some "abc")).2.2 (by decide)⟩

/-- C8: over any directory listing whose `mongodb_data_*.csv` matches
have pairwise distinct creation times, `get_latest_csv` returns the
match with maximal creation time, whatever order the listing
enumerates the files in. -/
theorem C8_latest_snapshot_selection (files files2 : List (String × Nat))
    (f : String × Nat) (hperm : files2.Perm files)
    (hpw : (snapshotMatches files).Pairwise fun a b => a.2 ≠ b.2)
    (hf : f ∈ snapshotMatches files)
    (hmax : ∀ y ∈ snapshotMatches files, y.2 ≤ f.2) :
    get_latest_csv files2 = some f := by
  have hp2 : (snapshotMatches files2).Perm (snapshotMatches files) :=
    hperm.filter _
  unfold get_latest_csv
  cases hm : snapshotMatches files2 with
  | nil =>
    rw [hm] at hp2
    have hf2 : f ∈ ([] : List (String × Nat)) := hp2.mem_iff.mpr hf
    simp at hf2
  | cons x xs =>
    rw [hm] at hp2
    obtain ⟨h1, h2, h3⟩ := ctFold_spec xs x
    have hmem : xs.foldl (fun acc y => if acc.2 < y.2 then y else acc) x ∈
        snapshotMatches files := hp2.subset h1
    have hmax2 : ∀ y ∈ snapshotMatches files,
        y.2 ≤ (xs.foldl (fun acc y => if acc.2 < y.2 then y else acc) x).2 := by
      intro y hy
      rcases List.mem_cons.mp (hp2.symm.subset hy) with h | h
      · rw [h]
        exact h2
      · exact h3 y h
    have heq := ctime_max_unique hpw hf hmem hmax hmax2
    simp only [pyMaxByCtime]
    rw [heq]

/-- C8, witness: three snapshots with distinct creation times listed in
a different order still select the newest. -/
theorem C8_latest_snapshot_selection_witness :
    [("mongodb_data_2.csv", 2), ("notes.txt", 9), ("mongodb_data_3.csv", 3),
        ("mongodb_data_1.csv", 1)].Perm
      [("mongodb_data_1.csv", 1), ("mongodb_data_3.csv", 3),
        ("mongodb_data_2.csv", 2), ("notes.txt", 9)] ∧
    get_latest_csv [("mongodb_data_2.csv", 2), ("notes.txt", 9),
        ("mongodb_data_3.csv", 3), ("mongodb_data_1.csv", 1)] =
      some ("mongodb_data_3.csv", 3) :=
  ⟨by decide,
    C8_latest_snapshot_selection
      [("mongodb_data_1.csv", 1), ("mongodb_data_3.csv", 3),
        ("mongodb_data_2.csv", 2), ("notes.txt", 9)]
      [("mongodb_data_2.csv", 2), ("notes.txt", 9), ("mongodb_data_3.csv", 3),
        ("mongodb_data_1.csv", 1)]
      ("mongodb_data_3.csv", 3) (by decide) (by decide) (by decide) (by decide)⟩

/-- C9: when a supervisor iteration detects a change (the stored
fingerprint does not match the fresh digest, or no file exists) and
the subsequent refresh fails, the fingerprint file nevertheless holds
the new digest — it is never rolled back — so a later iteration over
identical store contents reports no change and attempts no refresh for
that missed update. -/
theorem C9_no_rollback_misses_change (connOk1 connOk2 : Nat → Bool)
    (st : MongoState) (fs : Option String) (rOk : Bool)
    (h1 : (connOk1 0 || connOk1 1 || connOk1 2) = true)
    (h2 : (connOk2 0 || connOk2 1 || connOk2 2) = true)
    (hmiss : ∀ s, fs = some s → pyStrip s ≠ computeHash st) :
    supervisorIteration connOk1 st false fs =
      (some (computeHash st), true, false) ∧
    supervisorIteration connOk2 st rOk (some (computeHash st)) =
      (some (computeHash st), false, false) := by
  have e1 : get_mongodb_data_hash connOk1 st = some (computeHash st) := by
    simp [get_mongodb_data_hash, h1]
  have e2 : get_mongodb_data_hash connOk2 st = some (computeHash st) := by
    simp [get_mongodb_data_hash, h2]
  have cy : classifyStdout "YES_CHANGED\n" = some true := by decide
  have cn : classifyStdout "NO_CHANGED\n" = some false := by decide
  constructor
  · cases fs with
    | none =>
      simp [supervisorIteration, supervisorCheck, detectorMain, e1,
        has_data_changed, detectorOutput, cy]
    | some s =>
      have hne : computeHash st ≠ pyStrip s := fun he => hmiss s rfl he.symm
      simp [supervisorIteration, supervisorCheck, detectorMain, e1,
        has_data_changed, detectorOutput, cy, hne]
  · simp [supervisorIteration, supervisorCheck, detectorMain, e2,
      has_data_changed, detectorOutput, cn, pyStrip_computeHash]

/-- C9, witness: first run on a missing fingerprint file with a failing
refresh, then a second iteration over the same store. -/
theorem C9_no_rollback_misses_change_witness :
    (((fun _ : Nat => true) 0 || (fun _ : Nat => true) 1 ||
        (fun _ : Nat => true) 2) = true) ∧
    (supervisorIteration (fun _ => true) stKeysA false none =
        (some (computeHash stKeysA), true, false) ∧
      supervisorIteration (fun _ => true) stKeysA true
          (some (computeHash stKeysA)) =
        (some (computeHash stKeysA), false, false)) :=
  ⟨by decide, C9_no_rollback_misses_change (fun _ => true) (fun _ => true)
    stKeysA none true (by decide) (by decide) (fun s hs => nomatch hs)⟩

/-- C10: when the startup port probe finds the API port already
serving, the supervisor keeps no process handle; no number of loop
iterations ever spawns an API server (whatever `poll()` would report)
and the shutdown path terminates nothing. -/
theorem C10_no_adoption_no_respawn (exited : Nat → Bool) (newPids : Nat → Nat)
    (n spawnPid : Nat) :
    mainInitApiProcess true spawnPid = none ∧
    apiLoop exited newPids n (mainInitApiProcess true spawnPid) = none ∧
    shutdownTerminates (apiLoop exited newPids n (mainInitApiProcess true spawnPid)) =
      false := by
  have hnone : ∀ m, apiLoop exited newPids m none = none := by
    intro m
    induction m with
    | zero => rfl
    | succ k ih => simpa [apiLoop, apiIterate] using ih
  refine ⟨rfl, ?_, ?_⟩
  · show apiLoop exited newPids n none = none
    exact hnone n
  · show shutdownTerminates (apiLoop exited newPids n none) = false
    rw [hnone n]
    rfl

end APICap
